import Mathlib

/-!
# gravityCanvas — verification of the core simulation engine

Shallow embedding of the core simulation of the gravityCanvas repository:
`src/core/SimulationEngine.ts`, `src/core/GravityWell.ts` (classes
`GravityWell` and `Particle3D`), and the vector utilities
(`src/utils/math3D.ts`, `src/utils/validation.ts`).

Two embeddings are used:

* The main model (`namespace GravityCanvas`) idealises JavaScript `number`
  as the real numbers `ℝ` (every value finite; `Math.sqrt` is `Real.sqrt`).
  All simulation state is explicit: each class instance is a structure, each
  mutating method is a function returning the updated structure, and
  `Math.random()` draws are passed in explicitly as parameters.  Nothing in
  the embedded method bodies can throw for real-number inputs, so the
  `try { ... } catch { }` wrappers of the source collapse to their bodies
  (this is noted per definition where a `catch` exists in the source).
  Canvas drawing is modelled as a list of emitted drawing commands
  (`CanvasOp`); the colour strings built by the source are abstracted to
  their numeric payloads.

* A second model (`namespace GravityCanvasF`) refines `number` to
  `Option ℚ`, where `none` stands for a non-finite value (NaN): arithmetic
  propagates `none`, comparisons involving `none` are `false`, exactly as
  IEEE-754 NaN behaves in JavaScript.  This model settles the claims about
  NaN handling in `Particle3D.update`, which are invisible over `ℝ`.
-/

namespace GravityCanvas

noncomputable section

/-- `Vector2D` of `src/types`: `{ x, y }`. -/
structure Vector2 where
  x : ℝ
  y : ℝ

/-- `Vector3D` of `src/types`: `{ x, y, z }`. -/
structure Vector3 where
  x : ℝ
  y : ℝ
  z : ℝ

/-- `CanvasRect` of `src/types`: `{ width, height }`. -/
structure CanvasRect where
  width : ℝ
  height : ℝ

/-- `magnitude3D` of `src/utils/math3D.ts`:
`Math.sqrt(x*x + y*y + z*z)`. -/
def magnitude3D (v : Vector3) : ℝ :=
  Real.sqrt (v.x * v.x + v.y * v.y + v.z * v.z)

/-- `distance3D` of `src/utils/math3D.ts`:
`Math.sqrt(dx*dx + dy*dy + dz*dz)` for the componentwise difference. -/
def distance3D (a b : Vector3) : ℝ :=
  Real.sqrt ((a.x - b.x) * (a.x - b.x) + (a.y - b.y) * (a.y - b.y) +
    (a.z - b.z) * (a.z - b.z))

/-- `isValidNumber` of `src/utils/validation.ts`: `typeof value === 'number'
&& isFinite(value) && !isNaN(value)`.  In the `ℝ` idealisation every value
is a finite number, so this is constantly `true` (the NaN-refined model
`GravityCanvasF` has the honest version). -/
def isValidNumber (_value : ℝ) : Bool := true

/-- `isValidVector3D` of `src/utils/validation.ts` on a well-shaped vector:
all three components are valid numbers. -/
def isValidVector3D (v : Vector3) : Bool :=
  isValidNumber v.x && isValidNumber v.y && isValidNumber v.z

/-- `ParticleConfig` of `src/types`. -/
structure ParticleConfig where
  maxTrailLength : ℕ
  maxSpeed : ℝ
  minLifespan : ℝ
  maxLifespan : ℝ
  size : ℝ
  use3D : Bool

/-- `GravityWellConfig` of `src/types`. -/
structure GravityWellConfig where
  strength : ℝ
  maxLife : ℝ
  maxRange : ℝ

/-- State of a `Particle3D` instance (`src/core/Particle3D.ts`): the public
fields plus the private immutable snapshots `config` and `canvasBounds`
taken by the constructor. -/
structure Particle3D where
  position : Vector3
  velocity : Vector3
  acceleration : Vector3
  trail : List Vector3
  life : ℝ
  config : ParticleConfig
  canvasBounds : CanvasRect

/-- The `Particle3D` constructor.  The three velocity draws and the lifespan
draw of `Math.random()` are passed explicitly (`rv1 rv2 rv3 rLife`).  The
constructor copies `position`, `config` and `canvasBounds` by value
(`{ ...x }` spreads in the source), so the particle keeps a private
snapshot of the canvas bounds it was created with.  The finiteness
validation of `position`/`canvasBounds` never throws for real inputs. -/
def Particle3D.create (position : Vector3) (config : ParticleConfig)
    (canvasBounds : CanvasRect) (rv1 rv2 rv3 rLife : ℝ) : Particle3D :=
  { position := position
    velocity := ⟨(rv1 - 0.5) * 1.5, (rv2 - 0.5) * 1.5, (rv3 - 0.5) * 1.5⟩
    acceleration := ⟨0, 0, 0⟩
    trail := []
    life := rLife * (config.maxLifespan - config.minLifespan) + config.minLifespan
    config := config
    canvasBounds := canvasBounds }

/-- `Particle3D.applyForce`: ignored when the force has a non-finite
component, otherwise added into `acceleration`. -/
def Particle3D.applyForce (p : Particle3D) (force : Vector3) : Particle3D :=
  if isValidVector3D force then
    { p with acceleration := ⟨p.acceleration.x + force.x,
        p.acceleration.y + force.y, p.acceleration.z + force.z⟩ }
  else p

/-- `Particle3D.resetToSafeState`: respawn at a random in-bounds position
(random draws `r1 r2 r3` passed explicitly) with zero velocity and
acceleration and an empty trail. -/
def Particle3D.resetToSafeState (p : Particle3D) (r1 r2 r3 : ℝ) : Particle3D :=
  { p with
    position := ⟨r1 * p.canvasBounds.width, r2 * p.canvasBounds.height,
      (r3 - 0.5) * 200⟩
    velocity := ⟨0, 0, 0⟩
    acceleration := ⟨0, 0, 0⟩
    trail := [] }

/-- `Particle3D.wrapAroundEdges`: each axis wraps to the opposite face when
the position leaves the box; x and y wrap against the particle's own stored
`canvasBounds` snapshot, z against the fixed band `[-100, 100]`
(`z < -100 ↦ 100`, `z > 100 ↦ -100`).  If any axis wrapped, the trail is
cleared. -/
def Particle3D.wrapAroundEdges (p : Particle3D) : Particle3D :=
  { p with
    position :=
      ⟨if p.position.x < 0 then p.canvasBounds.width
        else if p.position.x > p.canvasBounds.width then 0
        else p.position.x,
       if p.position.y < 0 then p.canvasBounds.height
        else if p.position.y > p.canvasBounds.height then 0
        else p.position.y,
       if p.position.z < -100 then 100
        else if p.position.z > 100 then -100
        else p.position.z⟩
    trail :=
      if (p.position.x < 0 ∨ p.position.x > p.canvasBounds.width) ∨
         (p.position.y < 0 ∨ p.position.y > p.canvasBounds.height) ∨
         (p.position.z < -100 ∨ p.position.z > 100) then []
      else p.trail }

/-- `Particle3D.update`: one integration step, in source order —
velocity += acceleration; clamp `|velocity|` to `maxSpeed` by uniform
rescaling; position += velocity; acceleration := 0; append the new position
to the trail when the trail is empty or the distance from the last trail
point exceeds 2.0 (dropping the oldest point when the trail then exceeds
`maxTrailLength`); wrap around the edges; age += 1.

The whole body is wrapped in `try { } catch { this.resetToSafeState(); }`
in the source; none of the operations in the body can throw in JavaScript
(IEEE arithmetic is total and the array operations used are safe), so the
catch branch is unreachable and the method is its body. -/
def Particle3D.update (p : Particle3D) : Particle3D :=
  let v1 : Vector3 := ⟨p.velocity.x + p.acceleration.x,
    p.velocity.y + p.acceleration.y, p.velocity.z + p.acceleration.z⟩
  let speed := magnitude3D v1
  let v : Vector3 :=
    if speed > p.config.maxSpeed then
      ⟨v1.x * (p.config.maxSpeed / speed), v1.y * (p.config.maxSpeed / speed),
        v1.z * (p.config.maxSpeed / speed)⟩
    else v1
  let pos : Vector3 := ⟨p.position.x + v.x, p.position.y + v.y,
    p.position.z + v.z⟩
  let pushed := p.trail ++ [pos]
  let trimmed := if pushed.length > p.config.maxTrailLength then pushed.tail
    else pushed
  let newTrail :=
    match p.trail.getLast? with
    | none => trimmed
    | some lastPoint =>
        if Real.sqrt ((pos.x - lastPoint.x) ^ 2 + (pos.y - lastPoint.y) ^ 2 +
            (pos.z - lastPoint.z) ^ 2) > 2.0 then trimmed
        else p.trail
  let moved : Particle3D :=
    { p with
      position := pos
      velocity := v
      acceleration := ⟨0, 0, 0⟩
      trail := newTrail }
  let q := Particle3D.wrapAroundEdges moved
  { q with life := q.life + 1 }

/-- `Particle3D.project3DTo2D`: pinhole projection with focal length 300 and
denominator `z + 100` (division by zero is modelled by the total real
division, which returns 0; JavaScript returns an infinity there — either
way the projection is degenerate at `z = -100`). -/
def Particle3D.project3DTo2D (p : Particle3D) (pos3D : Vector3) : Vector2 :=
  ⟨(pos3D.x - p.canvasBounds.width / 2) * (300 / (pos3D.z + 100)) +
      p.canvasBounds.width / 2,
   (pos3D.y - p.canvasBounds.height / 2) * (300 / (pos3D.z + 100)) +
      p.canvasBounds.height / 2⟩

/-- State of a `GravityWell` instance (`src/core/GravityWell.ts`): the
public fields plus the private `config` snapshot. -/
structure GravityWell where
  position : Vector2
  strength : ℝ
  isRepulsive : Bool
  life : ℝ
  config : GravityWellConfig

/-- The `GravityWell` constructor: copies the position, stores the absolute
value of the supplied strength, sets `life = 0` and snapshots the config.
The finiteness validation never throws for real inputs. -/
def GravityWell.create (position : Vector2) (strength : ℝ)
    (isRepulsive : Bool) (config : GravityWellConfig) : GravityWell :=
  { position := position
    strength := |strength|
    isRepulsive := isRepulsive
    life := 0
    config := config }

/-- `GravityWell.update`: `this.life++`. -/
def GravityWell.update (w : GravityWell) : GravityWell :=
  { w with life := w.life + 1 }

/-- `GravityWell.isDead`: `this.life > this.config.maxLife` (strict). -/
def GravityWell.isDead (w : GravityWell) : Bool :=
  decide (w.life > w.config.maxLife)

/-- `GravityWell.getAlpha`: `max(0, 1 - life / maxLife)`. -/
def GravityWell.getAlpha (w : GravityWell) : ℝ :=
  max 0 (1 - w.life / w.config.maxLife)

/-- `GravityWell.calculateForce`:
`strength * 100 / (max(dist, 5)^2 + 100)`. -/
def GravityWell.calculateForce (w : GravityWell) (dist : ℝ) : ℝ :=
  w.strength * 100 / (max dist 5 * max dist 5 + 100)

/-- `GravityWell.applyForceToParticle`: place the well at `z = 0`, take the
displacement from particle to well; when `2 < dist < maxRange`, add the
force along that displacement scaled by `-0.1` (repulsive) or `0.06`
(attractive) to the particle's acceleration.  The `try`/`catch` wrapper of
the source is dropped: the body cannot throw. -/
def GravityWell.applyForceToParticle (w : GravityWell) (particle : Particle3D) :
    Particle3D :=
  let wellPos3D : Vector3 := ⟨w.position.x, w.position.y, 0⟩
  let dx := wellPos3D.x - particle.position.x
  let dy := wellPos3D.y - particle.position.y
  let dz := wellPos3D.z - particle.position.z
  let dist := distance3D wellPos3D particle.position
  if dist > 2 ∧ dist < w.config.maxRange then
    let force := w.calculateForce dist
    let forceMultiplier : ℝ := if w.isRepulsive then -0.1 else 0.06
    particle.applyForce ⟨dx / dist * force * forceMultiplier,
      dy / dist * force * forceMultiplier, dz / dist * force * forceMultiplier⟩
  else particle

/-- JavaScript `a % b` (remainder, used only with a nonnegative dividend in
the source, where it agrees with `a - b * ⌊a / b⌋`). -/
def jsMod (a b : ℝ) : ℝ := a - b * (⌊a / b⌋ : ℤ)

/-- One drawing command issued to the `CanvasRenderingContext2D`.  The
colour strings built by the source (`hsla(...)`, `rgba(...)`) are
abstracted to their numeric payloads; string-valued attributes with a
fixed value (`lineCap`, `lineJoin`, composite operation) carry nothing. -/
inductive CanvasOp where
  | fillRect (x y w h : ℝ)
  | clearRect (x y w h : ℝ)
  | beginPath
  | moveTo (x y : ℝ)
  | lineTo (x y : ℝ)
  | arc (x y radius startAngle endAngle : ℝ)
  | stroke
  | fill
  | setFillStyle (payload : List ℝ)
  | setStrokeStyle (payload : List ℝ)
  | setLineWidth (w : ℝ)
  | setLineCap
  | setLineJoin
  | setCompositeOperation
  | setImageSmoothing (enabled : Bool)

/-- `GravityWell.draw`: skip entirely once `getAlpha < 0.1`; otherwise
stroke a pulsing ring of radius `18 + sin(life * 0.08) * 4` and fill a
centre dot of radius 2, both at the well position.  Reads well state only;
the only writes are to the drawing context, returned as commands. -/
def GravityWell.draw (w : GravityWell) : List CanvasOp :=
  let alpha := max 0 (1 - w.life / w.config.maxLife)
  if alpha < 0.1 then []
  else
    [.setStrokeStyle [alpha * 0.8], .setLineWidth 2.5, .setLineCap,
     .beginPath,
     .arc w.position.x w.position.y (18 + Real.sin (w.life * 0.08) * 4) 0
       (Real.pi * 2),
     .stroke,
     .setFillStyle [alpha], .beginPath,
     .arc w.position.x w.position.y 2 0 (Real.pi * 2), .fill]

/-- `Particle3D.drawTrail3D`: project every trail point and stroke the
connected line, with speed-dependent alpha and width. -/
def Particle3D.drawTrail3D (p : Particle3D) (hue : ℝ) : List CanvasOp :=
  if p.trail.length < 2 then []
  else
    match p.trail with
    | [] => []
    | firstPoint :: rest =>
      let speed := magnitude3D p.velocity
      let first2D := p.project3DTo2D firstPoint
      [CanvasOp.beginPath, CanvasOp.moveTo first2D.x first2D.y] ++
        rest.map (fun pt =>
          let pt2D := p.project3DTo2D pt
          CanvasOp.lineTo pt2D.x pt2D.y) ++
        [.setStrokeStyle [↑⌊hue⌋, min 0.8 (0.4 + speed * 0.1)],
         .setLineWidth (max 1.5 (2.0 + speed * 0.2)), .setLineCap,
         .setLineJoin, .stroke]

/-- `Particle3D.drawParticle3D`: fill the projected particle dot, scaled by
the depth factor `max(0.3, 1 - (z + 100) / 200)`. -/
def Particle3D.drawParticle3D (p : Particle3D) (hue : ℝ) : List CanvasOp :=
  let speed := magnitude3D p.velocity
  let pos2D := p.project3DTo2D p.position
  let size := (p.config.size + min 2 (speed * 0.5)) *
    max 0.3 (1.0 - (p.position.z + 100) / 200)
  [.setFillStyle [↑⌊hue⌋], .beginPath, .arc pos2D.x pos2D.y size 0 (Real.pi * 2),
   .fill]

/-- `Particle3D.draw`: compute the hue from speed and age, draw the trail
when `showTrails` and the trail has at least two points, then the dot.
Reads particle state only; writes only drawing commands. -/
def Particle3D.draw (p : Particle3D) (showTrails : Bool) : List CanvasOp :=
  let hue := jsMod (magnitude3D p.velocity * 60 + p.life * 0.3) 360
  (if showTrails ∧ p.trail.length > 1 then p.drawTrail3D hue else []) ++
    p.drawParticle3D hue

/-- `SimulationConfig` of `src/types`. -/
structure SimulationConfig where
  particleCount : ℕ
  showTrails : Bool
  isPaused : Bool
  particle : ParticleConfig
  gravityWell : GravityWellConfig

/-- `Partial<SimulationConfig>` as accepted by `updateConfig`: every field
may be absent. -/
structure PartialSimulationConfig where
  particleCount : Option ℕ := none
  showTrails : Option Bool := none
  isPaused : Option Bool := none
  particle : Option ParticleConfig := none
  gravityWell : Option GravityWellConfig := none

/-- The spread merge `{ ...this.config, ...newConfig }`: present fields of
the partial override, absent fields keep the current value. -/
def mergeConfig (c : SimulationConfig) (nc : PartialSimulationConfig) :
    SimulationConfig :=
  { particleCount := nc.particleCount.getD c.particleCount
    showTrails := nc.showTrails.getD c.showTrails
    isPaused := nc.isPaused.getD c.isPaused
    particle := nc.particle.getD c.particle
    gravityWell := nc.gravityWell.getD c.gravityWell }

/-- `MouseInteraction` of `src/types`. -/
inductive MouseButton where
  | left
  | right
deriving DecidableEq

/-- `MouseInteraction` of `src/types`: a position and which button. -/
structure MouseInteraction where
  position : Vector2
  button : MouseButton

/-- State of a `SimulationEngine` instance (`src/core/SimulationEngine.ts`).
`currentFps` starts at 60; the other counters start at 0. -/
structure SimulationEngine where
  particles : List Particle3D
  gravityWells : List GravityWell
  config : SimulationConfig
  canvasBounds : CanvasRect
  lastFrameTime : ℝ
  frameCount : ℕ
  lastFpsUpdate : ℝ
  currentFps : ℝ

/-- The seven `Math.random()` draws consumed when one particle is built
(three for the position in `initializeParticles`, three for the velocity
and one for the lifespan inside the `Particle3D` constructor). -/
structure RandomDraw where
  posX : ℝ
  posY : ℝ
  posZ : ℝ
  velX : ℝ
  velY : ℝ
  velZ : ℝ
  life : ℝ

/-- `SimulationEngine.initializeParticles`: replace the particle collection
with `config.particleCount` fresh particles at random in-bounds positions.
The random draws for particle `i` are `rand i`.  The per-particle
`try`/`catch` (skip a particle whose constructor throws) is dropped: the
constructor cannot throw for real inputs. -/
def SimulationEngine.initializeParticles (rand : ℕ → RandomDraw)
    (e : SimulationEngine) : SimulationEngine :=
  { e with particles := (List.range e.config.particleCount).map (fun i =>
      Particle3D.create
        ⟨(rand i).posX * e.canvasBounds.width,
         (rand i).posY * e.canvasBounds.height,
         ((rand i).posZ - 0.5) * 200⟩
        e.config.particle e.canvasBounds
        (rand i).velX (rand i).velY (rand i).velZ (rand i).life) }

/-- The `SimulationEngine` constructor: snapshot config and bounds, start
the counters, and build the initial particle collection. -/
def SimulationEngine.create (config : SimulationConfig)
    (canvasBounds : CanvasRect) (rand : ℕ → RandomDraw) : SimulationEngine :=
  SimulationEngine.initializeParticles rand
    { particles := []
      gravityWells := []
      config := config
      canvasBounds := canvasBounds
      lastFrameTime := 0
      frameCount := 0
      lastFpsUpdate := 0
      currentFps := 60 }

/-- `SimulationEngine.updatePerformanceMetrics`: record the frame time,
bump the frame counter, and once a second (judged against the injected
`performance.now()` value `now`) recompute the FPS estimate with
`Math.round`. -/
def SimulationEngine.updatePerformanceMetrics (now deltaTime : ℝ)
    (e : SimulationEngine) : SimulationEngine :=
  let e1 := { e with lastFrameTime := deltaTime, frameCount := e.frameCount + 1 }
  if now - e1.lastFpsUpdate ≥ 1000 then
    { e1 with
      currentFps := (round ((e1.frameCount * 1000 : ℝ) / (now - e1.lastFpsUpdate)) : ℤ)
      frameCount := 0
      lastFpsUpdate := now }
  else e1

/-- The body of the `updateGravityWells` back-to-front loop of
`SimulationEngine`: `count` is the number of indices still to process, so
the next index handled is `count - 1` (the source starts at
`gravityWells.length - 1` and walks down to 0).  At each index the well is
aged (`well.update()`) and then removed by `splice(i, 1)` when dead. -/
def updateWellsAux : List GravityWell → ℕ → List GravityWell
  | ws, 0 => ws
  | ws, i + 1 =>
    match ws[i]? with
    | none => updateWellsAux ws i
    | some w =>
      let w2 := GravityWell.update w
      let ws2 := ws.set i w2
      updateWellsAux (if w2.isDead then ws2.eraseIdx i else ws2) i

/-- `SimulationEngine.updateGravityWells`: run the back-to-front
age-and-cull loop over the whole well collection. -/
def SimulationEngine.updateGravityWells (e : SimulationEngine) :
    SimulationEngine :=
  { e with gravityWells := updateWellsAux e.gravityWells e.gravityWells.length }

/-- `SimulationEngine.updateParticles`: for each particle, accumulate the
force from every well currently in the collection (in insertion order),
then integrate the particle. -/
def SimulationEngine.updateParticles (e : SimulationEngine) :
    SimulationEngine :=
  { e with particles := e.particles.map (fun p =>
      Particle3D.update
        (e.gravityWells.foldl (fun q w => w.applyForceToParticle q) p)) }

/-- `SimulationEngine.update`: no-op while paused; otherwise update the FPS
bookkeeping, then age/cull the wells, then update the particles.  The
`try`/`catch` wrapper is dropped: the body cannot throw in the model. -/
def SimulationEngine.update (now deltaTime : ℝ) (e : SimulationEngine) :
    SimulationEngine :=
  if e.config.isPaused then e
  else
    (((e.updatePerformanceMetrics now deltaTime).updateGravityWells).updateParticles)

/-- `SimulationEngine.clearCanvas`: translucent black overlay when trails
are on, full clear plus opaque black fill when off. -/
def SimulationEngine.clearCanvas (e : SimulationEngine) : List CanvasOp :=
  if e.config.showTrails then
    [.setCompositeOperation, .setFillStyle [0.08],
     .fillRect 0 0 e.canvasBounds.width e.canvasBounds.height]
  else
    [.clearRect 0 0 e.canvasBounds.width e.canvasBounds.height,
     .setFillStyle [],
     .fillRect 0 0 e.canvasBounds.width e.canvasBounds.height]

/-- `SimulationEngine.render`: validate the context handle (modelled by the
boolean `ctxValid`; an invalid handle draws nothing), then clear the
canvas, draw every well, and draw every particle.  The engine state is
returned unchanged alongside the emitted commands: every statement in
`render`, `clearCanvas`, `renderGravityWells`, `renderParticles`,
`GravityWell.draw` and `Particle3D.draw` only reads simulation state and
writes to the context. -/
def SimulationEngine.render (ctxValid : Bool) (e : SimulationEngine) :
    SimulationEngine × List CanvasOp :=
  if ctxValid then
    (e, e.clearCanvas ++ (e.gravityWells.map GravityWell.draw).flatten ++
      [CanvasOp.setImageSmoothing false] ++
      (e.particles.map (Particle3D.draw · e.config.showTrails)).flatten)
  else (e, [])

/-- `SimulationEngine.handleMouseInteraction`: spawn a well at the
interaction position — right button: repulsive with strength 80, otherwise
attractive with strength 50 — and append it to the collection.  The
`try`/`catch` (which swallows constructor validation errors) is dropped:
the constructor cannot throw for real inputs. -/
def SimulationEngine.handleMouseInteraction (interaction : MouseInteraction)
    (e : SimulationEngine) : SimulationEngine :=
  let strength : ℝ := if interaction.button = .right then 80 else 50
  let isRepulsive := interaction.button = .right
  { e with gravityWells := e.gravityWells ++
      [GravityWell.create interaction.position strength isRepulsive
        e.config.gravityWell] }

/-- `SimulationEngine.clearGravityWells`: empty the well collection. -/
def SimulationEngine.clearGravityWells (e : SimulationEngine) :
    SimulationEngine :=
  { e with gravityWells := [] }

/-- `SimulationEngine.toggleTrails`. -/
def SimulationEngine.toggleTrails (e : SimulationEngine) : SimulationEngine :=
  { e with config := { e.config with showTrails := !e.config.showTrails } }

/-- `SimulationEngine.togglePause`. -/
def SimulationEngine.togglePause (e : SimulationEngine) : SimulationEngine :=
  { e with config := { e.config with isPaused := !e.config.isPaused } }

/-- `SimulationEngine.updateCanvasBounds`: replace the engine's stored
bounds with a copy of the new bounds.  No other field is touched. -/
def SimulationEngine.updateCanvasBounds (newBounds : CanvasRect)
    (e : SimulationEngine) : SimulationEngine :=
  { e with canvasBounds := newBounds }

/-- `SimulationEngine.getConfig`: a copy of the current config. -/
def SimulationEngine.getConfig (e : SimulationEngine) : SimulationConfig :=
  e.config

/-- `SimulationEngine.updateConfig`: merge the partial config over the
current one; then, when the supplied `particleCount` is truthy (present
and nonzero) and differs from the current number of particles, rebuild the
particle collection. -/
def SimulationEngine.updateConfig (rand : ℕ → RandomDraw)
    (newConfig : PartialSimulationConfig) (e : SimulationEngine) :
    SimulationEngine :=
  let e1 := { e with config := mergeConfig e.config newConfig }
  match newConfig.particleCount with
  | none => e1
  | some c =>
      if c ≠ 0 ∧ c ≠ e1.particles.length then
        SimulationEngine.initializeParticles rand e1
      else e1

end

end GravityCanvas

namespace GravityCanvasF

/-!
NaN-refined model of `Particle3D` (`src/core/Particle3D.ts`).

A JavaScript `number` is modelled as `Option ℚ`: `none` is a non-finite
value (NaN), `some q` a finite value.  Arithmetic propagates `none` and
every comparison involving `none` is `false`, exactly as IEEE-754 NaN
behaves.  `Math.sqrt` returns NaN on negative input; on finite nonnegative
input it is modelled by `Rat.sqrt` (the exact result is irrelevant to the
theorems below, which only track finiteness).  Division by zero yields a
non-finite value in JavaScript (an infinity), also modelled by `none`.
-/

/-- A JavaScript number: `none` is NaN (or another non-finite value). -/
abbrev FNum := Option ℚ

/-- Addition: NaN-propagating. -/
def fAdd : FNum → FNum → FNum
  | some a, some b => some (a + b)
  | _, _ => none

/-- Subtraction: NaN-propagating. -/
def fSub : FNum → FNum → FNum
  | some a, some b => some (a - b)
  | _, _ => none

/-- Multiplication: NaN-propagating. -/
def fMul : FNum → FNum → FNum
  | some a, some b => some (a * b)
  | _, _ => none

/-- Division: NaN-propagating; division by zero is non-finite. -/
def fDiv : FNum → FNum → FNum
  | some a, some b => if b = 0 then none else some (a / b)
  | _, _ => none

/-- `a < b`: `false` whenever either side is NaN. -/
def fLt : FNum → FNum → Bool
  | some a, some b => decide (a < b)
  | _, _ => false

/-- `Math.sqrt`: NaN on NaN or negative input, finite otherwise. -/
def fSqrt : FNum → FNum
  | some q => if q < 0 then none else some (Rat.sqrt q)
  | none => none

/-- `isValidNumber` of `src/utils/validation.ts`: on a number this is
exactly the finiteness test. -/
def fIsValidNumber : FNum → Bool
  | some _ => true
  | none => false

/-- A `Vector3D` of JavaScript numbers. -/
structure FVec3 where
  x : FNum
  y : FNum
  z : FNum
deriving DecidableEq

/-- `isValidVector3D` on a well-shaped vector: all components finite. -/
def fIsValidVector3D (v : FVec3) : Bool :=
  fIsValidNumber v.x && fIsValidNumber v.y && fIsValidNumber v.z

/-- `magnitude3D` of `src/utils/math3D.ts`. -/
def fMagnitude3D (v : FVec3) : FNum :=
  fSqrt (fAdd (fAdd (fMul v.x v.x) (fMul v.y v.y)) (fMul v.z v.z))

/-- The particle/canvas config fields used by `Particle3D.update`; config
values are validated finite at the construction boundary, so they are
plain rationals. -/
structure FParticleConfig where
  maxTrailLength : ℕ
  maxSpeed : ℚ
deriving DecidableEq

/-- Canvas bounds as finite numbers (validated at construction). -/
structure FCanvasRect where
  width : ℚ
  height : ℚ
deriving DecidableEq

/-- State of a `Particle3D` instance over NaN-aware numbers. -/
structure FParticle3D where
  position : FVec3
  velocity : FVec3
  acceleration : FVec3
  trail : List FVec3
  life : FNum
  config : FParticleConfig
  canvasBounds : FCanvasRect
deriving DecidableEq

/-- `Particle3D.applyForce`: rejected (no-op) when any force component is
non-finite, otherwise accumulated into the acceleration. -/
def FParticle3D.applyForce (p : FParticle3D) (force : FVec3) : FParticle3D :=
  if fIsValidVector3D force then
    { p with acceleration := ⟨fAdd p.acceleration.x force.x,
        fAdd p.acceleration.y force.y, fAdd p.acceleration.z force.z⟩ }
  else p

/-- `Particle3D.resetToSafeState` with its three `Math.random()` draws
passed explicitly. -/
def FParticle3D.resetToSafeState (p : FParticle3D) (r1 r2 r3 : ℚ) :
    FParticle3D :=
  { p with
    position := ⟨some (r1 * p.canvasBounds.width),
      some (r2 * p.canvasBounds.height), some ((r3 - 1/2) * 200)⟩
    velocity := ⟨some 0, some 0, some 0⟩
    acceleration := ⟨some 0, some 0, some 0⟩
    trail := [] }

/-- `Particle3D.wrapAroundEdges` over NaN-aware numbers: note that every
comparison with a NaN coordinate is `false`, so a NaN coordinate never
wraps. -/
def FParticle3D.wrapAroundEdges (p : FParticle3D) : FParticle3D :=
  { p with
    position :=
      ⟨if fLt p.position.x (some 0) then some p.canvasBounds.width
        else if fLt (some p.canvasBounds.width) p.position.x then some 0
        else p.position.x,
       if fLt p.position.y (some 0) then some p.canvasBounds.height
        else if fLt (some p.canvasBounds.height) p.position.y then some 0
        else p.position.y,
       if fLt p.position.z (some (-100)) then some 100
        else if fLt (some 100) p.position.z then some (-100)
        else p.position.z⟩
    trail :=
      if (fLt p.position.x (some 0) || fLt (some p.canvasBounds.width) p.position.x) ||
         (fLt p.position.y (some 0) || fLt (some p.canvasBounds.height) p.position.y) ||
         (fLt p.position.z (some (-100)) || fLt (some 100) p.position.z) then []
      else p.trail }

/-- `Particle3D.update` over NaN-aware numbers, statement by statement the
body of the source method.  The body is wrapped in
`try { ... } catch { this.resetToSafeState(); }` in the source, but no
statement in it can throw: IEEE arithmetic never throws (non-finite
values propagate as values), `this.trail[this.trail.length - 1]` on an
empty array is `undefined` (handled by the conditional), and
`push`/`shift` are total.  The catch branch is therefore unreachable and
the method equals its body; in particular `resetToSafeState` is never
invoked from `update`. -/
def FParticle3D.update (p : FParticle3D) : FParticle3D :=
  let v1 : FVec3 := ⟨fAdd p.velocity.x p.acceleration.x,
    fAdd p.velocity.y p.acceleration.y, fAdd p.velocity.z p.acceleration.z⟩
  let speed := fMagnitude3D v1
  let v : FVec3 :=
    if fLt (some p.config.maxSpeed) speed then
      ⟨fMul v1.x (fDiv (some p.config.maxSpeed) speed),
       fMul v1.y (fDiv (some p.config.maxSpeed) speed),
       fMul v1.z (fDiv (some p.config.maxSpeed) speed)⟩
    else v1
  let pos : FVec3 := ⟨fAdd p.position.x v.x, fAdd p.position.y v.y,
    fAdd p.position.z v.z⟩
  let pushed := p.trail ++ [pos]
  let trimmed := if pushed.length > p.config.maxTrailLength then pushed.tail
    else pushed
  let newTrail :=
    match p.trail.getLast? with
    | none => trimmed
    | some lastPoint =>
        if fLt (some 2)
            (fSqrt (fAdd (fAdd (fMul (fSub pos.x lastPoint.x) (fSub pos.x lastPoint.x))
              (fMul (fSub pos.y lastPoint.y) (fSub pos.y lastPoint.y)))
              (fMul (fSub pos.z lastPoint.z) (fSub pos.z lastPoint.z)))) then
          trimmed
        else p.trail
  let moved : FParticle3D :=
    { p with
      position := pos
      velocity := v
      acceleration := ⟨some 0, some 0, some 0⟩
      trail := newTrail }
  let q := FParticle3D.wrapAroundEdges moved
  { q with life := fAdd q.life (some 1) }

end GravityCanvasF

namespace GravityCanvas

noncomputable section

/-- The particle config of the repository's own test fixtures
(`tests/core/GravityWell.test.ts`). -/
def sampleParticleConfig : ParticleConfig :=
  { maxTrailLength := 20
    maxSpeed := 5
    minLifespan := 200
    maxLifespan := 300
    size := 2
    use3D := true }

/-- The gravity-well config of the repository's own test fixtures. -/
def sampleWellConfig : GravityWellConfig :=
  { strength := 50, maxLife := 300, maxRange := 200 }

/-- A 200×200 canvas. -/
def oldBounds : CanvasRect := ⟨200, 200⟩

/-- A shrunk 100×100 canvas. -/
def newBounds : CanvasRect := ⟨100, 100⟩

/-- A concrete particle at rest at `(150, 50, 0)` whose stored bounds
snapshot is the 200×200 canvas. -/
def sampleParticle : Particle3D :=
  { position := ⟨150, 50, 0⟩
    velocity := ⟨0, 0, 0⟩
    acceleration := ⟨0, 0, 0⟩
    trail := []
    life := 0
    config := sampleParticleConfig
    canvasBounds := oldBounds }

/-- A concrete running (not paused) engine holding `sampleParticle` and no
wells, on the 200×200 canvas. -/
def sampleEngine : SimulationEngine :=
  { particles := [sampleParticle]
    gravityWells := []
    config :=
      { particleCount := 1
        showTrails := false
        isPaused := false
        particle := sampleParticleConfig
        gravityWell := sampleWellConfig }
    canvasBounds := oldBounds
    lastFrameTime := 0
    frameCount := 0
    lastFpsUpdate := 0
    currentFps := 60 }

/-- `sampleEngine`, paused. -/
def pausedEngine : SimulationEngine :=
  { sampleEngine with config := { sampleEngine.config with isPaused := true } }

/-- A left click at `(100, 200)`. -/
def leftClick : MouseInteraction := ⟨⟨100, 200⟩, .left⟩

/-- A particle at `(150, 100, 0)` at rest: the probe of the spec's force
example (distance 50 from a well at `(100, 100)`). -/
def probeParticle : Particle3D :=
  { sampleParticle with position := ⟨150, 100, 0⟩ }

/-- A particle whose z-coordinate 150 has overshot the far face of the
`[-100, 100]` band. -/
def deepParticle : Particle3D :=
  { sampleParticle with position := ⟨50, 50, 150⟩ }

/-- A well whose age equals its `maxLife` (300). -/
def wellAtMaxLife : GravityWell :=
  { position := ⟨0, 0⟩
    strength := 50
    isRepulsive := false
    life := 300
    config := sampleWellConfig }

/-- A well whose age is `maxLife + 1`. -/
def wellPastMaxLife : GravityWell := { wellAtMaxLife with life := 301 }

/-- A fixed supply of random draws (all zero). -/
def zeroDraw : RandomDraw := ⟨0, 0, 0, 0, 0, 0, 0⟩

/-- A partial config supplying only `particleCount := 1` (the current
particle count of `sampleEngine`). -/
def partialCountOne : PartialSimulationConfig := { particleCount := some 1 }

end

end GravityCanvas

namespace GravityCanvasF

/-- The particle config fields used by `update`, from the repository's test
fixtures. -/
def fSampleConfig : FParticleConfig := ⟨20, 5⟩

/-- A 200×200 canvas. -/
def fSampleBounds : FCanvasRect := ⟨200, 200⟩

/-- A particle whose velocity x-component has become NaN, otherwise
finite, at `(150, 50, 0)` with an empty trail. -/
def nanVelocityParticle : FParticle3D :=
  { position := ⟨some 150, some 50, some 0⟩
    velocity := ⟨none, some 0, some 0⟩
    acceleration := ⟨some 0, some 0, some 0⟩
    trail := []
    life := some 0
    config := fSampleConfig
    canvasBounds := fSampleBounds }

/-- An everywhere-finite particle. -/
def finiteParticle : FParticle3D :=
  { position := ⟨some 150, some 50, some 0⟩
    velocity := ⟨some 1, some 2, some 0⟩
    acceleration := ⟨some 0, some 0, some 0⟩
    trail := []
    life := some 0
    config := fSampleConfig
    canvasBounds := fSampleBounds }

end GravityCanvasF

open GravityCanvas GravityCanvasF

/-! ## Helper lemmas -/

theorem spawn_iterate_length (i : MouseInteraction) (e : SimulationEngine) :
    ∀ n : ℕ,
      ((SimulationEngine.handleMouseInteraction i)^[n] e).gravityWells.length =
        e.gravityWells.length + n := by
  intro n
  induction n with
  | zero => rfl
  | succ n ih =>
      rw [Function.iterate_succ_apply']
      simp only [SimulationEngine.handleMouseInteraction, List.length_append,
        List.length_singleton, ih]
      omega


/-! ## C1 — gravity-well collection cap -/

/-- C1, counterexample: spawning 101 wells in sequence via
`handleMouseInteraction` on an engine with no wells leaves 101 wells, not
the 50 the claim requires — `handleMouseInteraction` only pushes; no
overflow trim exists anywhere in `SimulationEngine`. -/
theorem spawn_101_wells_cex :
    ((SimulationEngine.handleMouseInteraction leftClick)^[101]
        sampleEngine).gravityWells.length = 101 ∧
      ¬ ((SimulationEngine.handleMouseInteraction leftClick)^[101]
        sampleEngine).gravityWells.length = 50 := by
  have h := spawn_iterate_length leftClick sampleEngine 101
  have h0 : sampleEngine.gravityWells.length = 0 := rfl
  rw [h0] at h
  exact ⟨h, by omega⟩

/-- C1, amended: an insertion via `handleMouseInteraction` appends exactly
one well and nothing is ever trimmed, so spawning `n` wells in sequence
adds exactly `n` wells to the collection (101 spawns on an empty
collection leave 101 wells); the collection is unbounded. -/
theorem handleMouseInteraction_appends (i : MouseInteraction)
    (e : SimulationEngine) (n : ℕ) :
    ((SimulationEngine.handleMouseInteraction i)^[n] e).gravityWells.length =
      e.gravityWells.length + n :=
  spawn_iterate_length i e n

/-! ## C8 — death boundary of a gravity well -/

/-- C8: `isDead()` is the strict test `age > maxLife`: it returns `false`
on a well whose age equals `maxLife` and `true` on a well whose age equals
`maxLife + 1`. -/
theorem isDead_strict_boundary (w w2 : GravityWell)
    (h : w.life = w.config.maxLife) (h2 : w2.life = w2.config.maxLife + 1) :
    w.isDead = false ∧ w2.isDead = true := by
  constructor
  · simp [GravityWell.isDead, h]
  · simp [GravityWell.isDead, h2]

/-- C8, witness: a well of age 300 with `maxLife = 300` is not dead; one of
age 301 is. -/
theorem isDead_strict_boundary_witness :
    wellAtMaxLife.isDead = false ∧ wellPastMaxLife.isDead = true :=
  isDead_strict_boundary wellAtMaxLife wellPastMaxLife rfl
    (by norm_num [wellPastMaxLife, wellAtMaxLife, sampleWellConfig])

/-! ## C9 — render is read-only -/

/-- C9: `render` never writes simulation state: with the engine paused (and
for any context handle, valid or not), any number of successive `render`
calls with no intervening `update` returns the engine state — every
particle's position, velocity, acceleration, trail and age, and every
well's position, strength, polarity and age — completely unchanged. -/
theorem render_preserves_state (e : SimulationEngine)
    (h : e.config.isPaused = true) (ctxValid : Bool) (n : ℕ) :
    (fun s => (SimulationEngine.render ctxValid s).1)^[n] e = e := by
  have hf : (fun s => (SimulationEngine.render ctxValid s).1) = id := by
    funext s
    cases ctxValid <;> rfl
  rw [hf, Function.iterate_id, id]

/-- C9, witness: two renders of the concrete paused engine leave it
unchanged. -/
theorem render_preserves_state_witness :
    (fun s => (SimulationEngine.render true s).1)^[2] pausedEngine =
      pausedEngine :=
  render_preserves_state pausedEngine rfl true 2

/-! ## C2 — updateCanvasBounds and existing particles -/

/-- C2, amended: `updateCanvasBounds` replaces the engine's stored bounds
and leaves every existing particle — including the private `canvasBounds`
snapshot each particle wraps against — completely unchanged; existing
particles therefore keep wrapping against the bounds captured at their
construction, and only particles constructed afterwards use the new
bounds. -/
theorem updateCanvasBounds_amended (nb : CanvasRect) (e : SimulationEngine) :
    (e.updateCanvasBounds nb).canvasBounds = nb ∧
      (e.updateCanvasBounds nb).particles = e.particles :=
  ⟨rfl, rfl⟩

/-- C2, counterexample: on the concrete engine, shrink the canvas from
200×200 to 100×100 and run one engine update.  The particle sits at
`x = 150`: wrapping against the new bounds would send it to `x = 0`
(`150 > 100`), but the engine's next update leaves it at `x = 150` — the
particle's wrap-around does not use the new bounds, because the particle
wraps against its own construction-time snapshot. -/
theorem updateCanvasBounds_cex :
    ((SimulationEngine.update 0 16
          (SimulationEngine.updateCanvasBounds newBounds
            sampleEngine)).particles.map fun p => p.position.x) = [150] ∧
      (Particle3D.wrapAroundEdges
          { sampleParticle with canvasBounds := newBounds }).position.x = 0 ∧
      sampleParticle.canvasBounds ≠ newBounds := by
  refine ⟨?_, ?_, ?_⟩
  · norm_num [SimulationEngine.update, SimulationEngine.updateCanvasBounds,
      SimulationEngine.updatePerformanceMetrics,
      SimulationEngine.updateGravityWells, SimulationEngine.updateParticles,
      sampleEngine, sampleParticle, sampleParticleConfig, oldBounds, newBounds,
      Particle3D.update, Particle3D.wrapAroundEdges, magnitude3D,
      updateWellsAux, Real.sqrt_zero]
  · simp only [Particle3D.wrapAroundEdges, sampleParticle, newBounds,
      sampleParticleConfig, oldBounds]
    norm_num
  · intro hcontra
    norm_num [sampleParticle, oldBounds, newBounds, CanvasRect.mk.injEq]
      at hcontra

/-! ## C6 — projection denominator -/

/-- C6, counterexample: the wrap logic itself produces `z = -100`: a
particle that overshoots the far face (`z = 150 > 100`) is wrapped to
`z = -100` exactly, so the projection denominator `z + 100` is 0, not
strictly positive — the claimed reflection to `+100` only covers the
`z < -100` side. -/
theorem projection_denominator_cex :
    ¬ (0 < (Particle3D.wrapAroundEdges deepParticle).position.z + 100) := by
  simp only [Particle3D.wrapAroundEdges, deepParticle, sampleParticle,
    sampleParticleConfig, oldBounds]
  norm_num

/-- C6, amended: after `wrapAroundEdges` the z-coordinate always lies in
the closed band `[-100, 100]`, so the projection denominator `z + 100` is
always nonnegative — but it can be exactly 0 (boundary `z = -100`, reached
whenever a particle overshoots `z > 100` and is wrapped to `-100`), so
`project3DTo2D` is not protected against a zero denominator. -/
theorem wrap_z_in_band (p : Particle3D) :
    -100 ≤ (Particle3D.wrapAroundEdges p).position.z ∧
      (Particle3D.wrapAroundEdges p).position.z ≤ 100 := by
  simp only [Particle3D.wrapAroundEdges]
  split_ifs with h1 h2 <;> constructor <;> push_neg at * <;> norm_num <;>
    linarith

/-! ## C10 — updateConfig without a rebuild -/

/-- C10: when the supplied `particleCount` equals the current number of
particles, or equals 0 (falsy), `updateConfig` merges the configuration —
`getConfig` subsequently reports the merged value — and the particle
collection, with every particle's position, velocity, trail and age, is
left exactly as it was. -/
theorem updateConfig_no_rebuild (rand : ℕ → RandomDraw)
    (e : SimulationEngine) (nc : PartialSimulationConfig)
    (h : nc.particleCount = some e.particles.length ∨
      nc.particleCount = some 0) :
    (e.updateConfig rand nc).getConfig = mergeConfig e.config nc ∧
      (e.updateConfig rand nc).particles = e.particles := by
  rcases h with h | h <;>
    simp [SimulationEngine.updateConfig, SimulationEngine.getConfig, h]

/-- C10, witness: supplying `particleCount := 1` to the engine that already
holds one particle merges the config and keeps the particle list. -/
theorem updateConfig_no_rebuild_witness :
    (sampleEngine.updateConfig (fun _ => zeroDraw) partialCountOne).getConfig =
        mergeConfig sampleEngine.config partialCountOne ∧
      (sampleEngine.updateConfig (fun _ => zeroDraw)
          partialCountOne).particles = sampleEngine.particles :=
  updateConfig_no_rebuild (fun _ => zeroDraw) sampleEngine partialCountOne
    (Or.inl rfl)

/-! ## C4 — cull-then-force ordering, safe removal during iteration -/

theorem getElem?_append_cons {α : Type} (l : List α) (w : α) (r : List α) :
    (l ++ w :: r)[l.length]? = some w := by
  induction l with
  | nil => simp
  | cons a as ih => simpa using ih

theorem set_append_cons {α : Type} (l : List α) (w w2 : α) (r : List α) :
    (l ++ w :: r).set l.length w2 = l ++ w2 :: r := by
  induction l with
  | nil => rfl
  | cons a as ih => simp [List.set, ih]

theorem eraseIdx_append_cons {α : Type} (l : List α) (w : α) (r : List α) :
    (l ++ w :: r).eraseIdx l.length = l ++ r := by
  induction l with
  | nil => rfl
  | cons a as ih => simp [List.eraseIdx, ih]

/-- The back-to-front age-and-cull loop, characterised: processing the
first `l.length` indices of `l ++ r` ages every well of `l` exactly once,
removes exactly the wells of `l` that are dead after aging, and leaves
the suffix `r` untouched — no entry is skipped or double-processed. -/
theorem updateWellsAux_spec (l : List GravityWell) :
    ∀ r : List GravityWell,
      updateWellsAux (l ++ r) l.length =
        (l.map GravityWell.update).filter (fun w => !w.isDead) ++ r := by
  induction l using List.reverseRecOn with
  | nil => intro r; rfl
  | append_singleton l w ih =>
      intro r
      have hlen : (l ++ [w]).length = l.length + 1 := by simp
      have hsplit : (l ++ [w]) ++ r = l ++ w :: r := by simp
      rw [hlen, hsplit, updateWellsAux, getElem?_append_cons]
      simp only [set_append_cons]
      by_cases hd : (GravityWell.update w).isDead
      · rw [if_pos hd, eraseIdx_append_cons, ih r]
        simp [List.filter_append, hd]
      · rw [if_neg hd, ih (GravityWell.update w :: r)]
        simp [List.filter_append, hd]

/-- The well pass of the engine equals: age every well once, then drop the
dead ones, preserving insertion order. -/
theorem updateGravityWells_eq (ws : List GravityWell) :
    updateWellsAux ws ws.length =
      (ws.map GravityWell.update).filter (fun w => !w.isDead) := by
  have h := updateWellsAux_spec ws []
  simpa using h

theorem metrics_preserves_wells (now deltaTime : ℝ) (e : SimulationEngine) :
    (e.updatePerformanceMetrics now deltaTime).gravityWells = e.gravityWells ∧
      (e.updatePerformanceMetrics now deltaTime).particles = e.particles ∧
      (e.updatePerformanceMetrics now deltaTime).config = e.config := by
  unfold SimulationEngine.updatePerformanceMetrics
  dsimp only
  split <;> exact ⟨rfl, rfl, rfl⟩

/-- C4: in every non-paused `update(dt)`, the engine first ages every well
by one tick and removes exactly those that are then dead (each well
processed exactly once by the back-to-front removal loop), and only
afterwards applies forces to the particles from the surviving, post-cull
wells — a well culled this tick applies no force this tick. -/
theorem update_cull_then_force (now deltaTime : ℝ) (e : SimulationEngine)
    (h : e.config.isPaused = false) :
    (e.update now deltaTime).gravityWells =
        (e.gravityWells.map GravityWell.update).filter (fun w => !w.isDead) ∧
      (e.update now deltaTime).particles = e.particles.map (fun p =>
        Particle3D.update
          (((e.gravityWells.map GravityWell.update).filter
              (fun w => !w.isDead)).foldl
            (fun q w => w.applyForceToParticle q) p)) := by
  obtain ⟨hw, hp, _⟩ := metrics_preserves_wells now deltaTime e
  unfold SimulationEngine.update
  rw [if_neg (by rw [h]; exact Bool.false_ne_true)]
  unfold SimulationEngine.updateParticles SimulationEngine.updateGravityWells
  simp only [hw, hp, updateGravityWells_eq]
  exact ⟨trivial, trivial⟩

/-- C4, witness: the concrete running engine satisfies the cull-then-force
characterisation. -/
theorem update_cull_then_force_witness :
    (sampleEngine.update 0 16).gravityWells =
        (sampleEngine.gravityWells.map GravityWell.update).filter
          (fun w => !w.isDead) ∧
      (sampleEngine.update 0 16).particles = sampleEngine.particles.map
        (fun p => Particle3D.update
          (((sampleEngine.gravityWells.map GravityWell.update).filter
              (fun w => !w.isDead)).foldl
            (fun q w => w.applyForceToParticle q) p)) :=
  update_cull_then_force 0 16 sampleEngine rfl

/-! ## C5 — speed clamp -/

theorem magnitude3D_nonneg (v : Vector3) : 0 ≤ magnitude3D v :=
  Real.sqrt_nonneg _

theorem magnitude3D_scale (v : Vector3) (c : ℝ) :
    magnitude3D ⟨v.x * c, v.y * c, v.z * c⟩ = magnitude3D v * |c| := by
  unfold magnitude3D
  have hnn : 0 ≤ v.x * v.x + v.y * v.y + v.z * v.z :=
    add_nonneg (add_nonneg (mul_self_nonneg v.x) (mul_self_nonneg v.y))
      (mul_self_nonneg v.z)
  rw [show v.x * c * (v.x * c) + v.y * c * (v.y * c) + v.z * c * (v.z * c) =
      (v.x * v.x + v.y * v.y + v.z * v.z) * c ^ 2 from by ring,
    Real.sqrt_mul hnn, Real.sqrt_sq_eq_abs]

/-- The velocity produced by one `update` step, read off the definition:
the post-acceleration velocity, rescaled by `maxSpeed / speed` exactly
when its magnitude exceeds `maxSpeed`. -/
theorem update_velocity (p : Particle3D) :
    (Particle3D.update p).velocity =
      (let v1 : Vector3 := ⟨p.velocity.x + p.acceleration.x,
        p.velocity.y + p.acceleration.y, p.velocity.z + p.acceleration.z⟩
      if magnitude3D v1 > p.config.maxSpeed then
        ⟨v1.x * (p.config.maxSpeed / magnitude3D v1),
         v1.y * (p.config.maxSpeed / magnitude3D v1),
         v1.z * (p.config.maxSpeed / magnitude3D v1)⟩
      else v1) := rfl

/-- C5: after any `update()` call (on any particle state — the model is
the idealised finite/real one, so every state is the image of a finite
one), the Euclidean magnitude of the velocity is at most
`config.maxSpeed`, enforced by uniform rescaling of the velocity vector
when the post-acceleration magnitude exceeds `maxSpeed`. -/
theorem update_velocity_clamped (p : Particle3D)
    (h : 0 ≤ p.config.maxSpeed) :
    magnitude3D (Particle3D.update p).velocity ≤ p.config.maxSpeed := by
  rw [update_velocity]
  set v1 : Vector3 := ⟨p.velocity.x + p.acceleration.x,
    p.velocity.y + p.acceleration.y, p.velocity.z + p.acceleration.z⟩ with hv1
  by_cases hc : magnitude3D v1 > p.config.maxSpeed
  · have hpos : 0 < magnitude3D v1 := lt_of_le_of_lt h hc
    rw [if_pos hc, magnitude3D_scale,
      abs_of_nonneg (by positivity : (0:ℝ) ≤ p.config.maxSpeed / magnitude3D v1),
      mul_div_cancel₀ _ (ne_of_gt hpos)]
  · rw [if_neg hc]
    exact le_of_not_lt hc

/-- C5, witness: the concrete particle (whose `maxSpeed` is 5) satisfies
the clamp after an update. -/
theorem update_velocity_clamped_witness :
    0 ≤ sampleParticle.config.maxSpeed ∧
      magnitude3D (Particle3D.update sampleParticle).velocity ≤
        sampleParticle.config.maxSpeed :=
  ⟨by norm_num [sampleParticle, sampleParticleConfig],
   update_velocity_clamped sampleParticle
     (by norm_num [sampleParticle, sampleParticleConfig])⟩

/-! ## C7 — force direction and polarity at the spec's example -/

theorem distance3D_probe :
    distance3D ⟨100, 100, 0⟩ ⟨150, 100, 0⟩ = 50 := by
  unfold distance3D
  norm_num
  rw [show (2500 : ℝ) = 50 ^ 2 by norm_num,
    Real.sqrt_sq (by norm_num : (0:ℝ) ≤ 50)]

/-- C7: for the resting probe particle at `(150, 100, 0)` and a well at
`(100, 100)` of positive strength whose `maxRange` exceeds 50,
`applyForceToParticle` yields strictly negative x-acceleration and zero
y- and z-acceleration when the well is attractive (the `+0.06`
multiplier), and strictly positive x-acceleration (zero y and z) when the
same well is repulsive (the `-0.1` multiplier). -/
theorem applyForceToParticle_example (s cs ml mr : ℝ) (hs : 0 < s)
    (hr : 50 < mr) :
    (((GravityWell.create ⟨100, 100⟩ s false
          ⟨cs, ml, mr⟩).applyForceToParticle probeParticle).acceleration.x < 0 ∧
      ((GravityWell.create ⟨100, 100⟩ s false
          ⟨cs, ml, mr⟩).applyForceToParticle probeParticle).acceleration.y = 0 ∧
      ((GravityWell.create ⟨100, 100⟩ s false
          ⟨cs, ml, mr⟩).applyForceToParticle probeParticle).acceleration.z = 0) ∧
    (((GravityWell.create ⟨100, 100⟩ s true
          ⟨cs, ml, mr⟩).applyForceToParticle probeParticle).acceleration.x > 0 ∧
      ((GravityWell.create ⟨100, 100⟩ s true
          ⟨cs, ml, mr⟩).applyForceToParticle probeParticle).acceleration.y = 0 ∧
      ((GravityWell.create ⟨100, 100⟩ s true
          ⟨cs, ml, mr⟩).applyForceToParticle probeParticle).acceleration.z = 0) := by
  have habs : |s| = s := abs_of_pos hs
  have hmax : max (50 : ℝ) 5 = 50 := max_eq_left (by norm_num)
  simp only [GravityWell.applyForceToParticle, GravityWell.create,
    GravityWell.calculateForce, Particle3D.applyForce, isValidVector3D,
    isValidNumber, probeParticle, sampleParticle, distance3D_probe, habs,
    hmax, Bool.and_self, if_true]
  norm_num [hr]
  all_goals positivity

/-- C7, witness: the spec's own numbers — strength 50, `maxRange` 200. -/
theorem applyForceToParticle_example_witness :
    0 < (50 : ℝ) ∧ 50 < (200 : ℝ) ∧
      (((GravityWell.create ⟨100, 100⟩ 50 false
            ⟨50, 300, 200⟩).applyForceToParticle
          probeParticle).acceleration.x < 0 ∧
        ((GravityWell.create ⟨100, 100⟩ 50 false
            ⟨50, 300, 200⟩).applyForceToParticle
          probeParticle).acceleration.y = 0 ∧
        ((GravityWell.create ⟨100, 100⟩ 50 false
            ⟨50, 300, 200⟩).applyForceToParticle
          probeParticle).acceleration.z = 0) ∧
      (((GravityWell.create ⟨100, 100⟩ 50 true
            ⟨50, 300, 200⟩).applyForceToParticle
          probeParticle).acceleration.x > 0 ∧
        ((GravityWell.create ⟨100, 100⟩ 50 true
            ⟨50, 300, 200⟩).applyForceToParticle
          probeParticle).acceleration.y = 0 ∧
        ((GravityWell.create ⟨100, 100⟩ 50 true
            ⟨50, 300, 200⟩).applyForceToParticle
          probeParticle).acceleration.z = 0) :=
  ⟨by norm_num, by norm_num,
    applyForceToParticle_example 50 50 300 200 (by norm_num) (by norm_num)⟩

/-! ## C3 — NaN handling in Particle3D.update -/

theorem fSqrt_some_of_nonneg (q : ℚ) (h : 0 ≤ q) :
    fSqrt (some q) = some (Rat.sqrt q) := by
  simp [fSqrt, not_lt.mpr h]

theorem fDiv_some (a b : ℚ) (h : b ≠ 0) :
    fDiv (some a) (some b) = some (a / b) := by
  simp [fDiv, h]

theorem fValid_iff (v : FVec3) :
    fIsValidVector3D v = true ↔ ∃ a b c : ℚ, v = ⟨some a, some b, some c⟩ := by
  obtain ⟨x, y, z⟩ := v
  cases x <;> cases y <;> cases z <;>
    simp [fIsValidVector3D, fIsValidNumber, FVec3.mk.injEq]

/-- C3, counterexample: a particle whose velocity x-component is NaN is not
reset by `update()` — no JavaScript statement in the body throws, so the
catch-and-reset branch never runs.  The NaN survives the step (the clamp
comparison and the wrap comparisons are all false on NaN) and poisons the
position: after `update()` the particle retains a non-finite velocity and
has acquired a non-finite position, and its velocity is not the zero
vector a reset to the safe state would have produced. -/
theorem nan_is_not_reset_cex :
    (FParticle3D.update nanVelocityParticle).velocity.x = none ∧
      (FParticle3D.update nanVelocityParticle).position.x = none ∧
      ¬ (FParticle3D.update nanVelocityParticle).velocity =
          ⟨some 0, some 0, some 0⟩ := by
  refine ⟨rfl, rfl, by decide⟩

/-- C3, amended: `resetToSafeState` is reached only when the update body
throws, which no statement of the body can do; a non-finite component
therefore propagates through `update()` instead of triggering a reset
(see the counterexample).  What the code does guarantee is containment at
the force boundary plus closure of finite states: `applyForce` rejects any
force with a non-finite component, and — as proved here — a particle whose
position, velocity and acceleration are all finite still has a finite
position and velocity after `update()` (with a nonnegative configured
`maxSpeed`), so NaN can never arise from within the update itself. -/
theorem update_preserves_finiteness (p : FParticle3D)
    (hpos : fIsValidVector3D p.position = true)
    (hvel : fIsValidVector3D p.velocity = true)
    (hacc : fIsValidVector3D p.acceleration = true)
    (hms : 0 ≤ p.config.maxSpeed) :
    fIsValidVector3D (FParticle3D.update p).position = true ∧
      fIsValidVector3D (FParticle3D.update p).velocity = true := by
  obtain ⟨pos, vel, acc, trail, life, cfg, cb⟩ := p
  obtain ⟨px, py, pz, hP⟩ := (fValid_iff _).mp hpos
  obtain ⟨vx, vy, vz, hV⟩ := (fValid_iff _).mp hvel
  obtain ⟨ax, ay, az, hA⟩ := (fValid_iff _).mp hacc
  subst hP hV hA
  have hS : (0 : ℚ) ≤ (vx + ax) * (vx + ax) + (vy + ay) * (vy + ay) +
      (vz + az) * (vz + az) :=
    add_nonneg (add_nonneg (mul_self_nonneg _) (mul_self_nonneg _))
      (mul_self_nonneg _)
  simp only [FParticle3D.update, fAdd, fMagnitude3D, fMul, fSqrt_some_of_nonneg _ hS]
  simp only [fLt]
  rcases lt_or_le cfg.maxSpeed
      (Rat.sqrt ((vx + ax) * (vx + ax) + (vy + ay) * (vy + ay) +
        (vz + az) * (vz + az))) with hlt | hle
  · have hne : Rat.sqrt ((vx + ax) * (vx + ax) + (vy + ay) * (vy + ay) +
        (vz + az) * (vz + az)) ≠ 0 := by
      intro h0
      rw [h0] at hlt
      exact absurd hlt (not_lt.mpr hms)
    simp [hlt, fDiv_some _ _ hne, fMul, fAdd, FParticle3D.wrapAroundEdges,
      fIsValidVector3D, fIsValidNumber]
    all_goals try (split_ifs <;> simp [fIsValidVector3D, fIsValidNumber])
  · have hnlt := not_lt.mpr hle
    simp [hnlt, fAdd, FParticle3D.wrapAroundEdges, fIsValidVector3D,
      fIsValidNumber]
    all_goals try (split_ifs <;> simp [fIsValidVector3D, fIsValidNumber])

/-- C3, witness: the everywhere-finite concrete particle stays finite
through an update. -/
theorem update_preserves_finiteness_witness :
    fIsValidVector3D finiteParticle.position = true ∧
      fIsValidVector3D finiteParticle.velocity = true ∧
      fIsValidVector3D finiteParticle.acceleration = true ∧
      0 ≤ finiteParticle.config.maxSpeed ∧
      (fIsValidVector3D (FParticle3D.update finiteParticle).position = true ∧
        fIsValidVector3D (FParticle3D.update finiteParticle).velocity = true) :=
  ⟨by decide, by decide, by decide, by decide,
    update_preserves_finiteness finiteParticle (by decide) (by decide)
      (by decide) (by decide)⟩
